import Mathlib

/-!
Verification of the ConceptNet 5 Wiktionary semantics module
(`conceptnet5/wiktparse/rules.py`): a shallow embedding of its data model
(`LinkedText`, `EdgeInfo`), of the template and section semantic handlers,
and of the structured-entry walker, together with theorems about the
module's documented behaviour.

Python-specific behaviour is modelled explicitly:
- `None` becomes `Option.none`; string truthiness (`if x:`) treats both
  `none` and `some ""` as false;
- raised exceptions become `Except.error` values of type `PyErr`;
- strings are lists of code points, and all string operations used by the
  module are defined on the code-point list so that they compute.

External collaborators that are not part of the embedded source file
(`normalized_concept_uri`, `make_edge`, `join_uri`, the license constant,
the `ENGLISH_NAME_TO_CODE` table, the generated PEG parser engine and the
titles database) are modelled from the spec or taken as parameters of the
`Semantics` context.
-/

/-- Exceptions that the embedded code can raise. -/
inductive PyErr where
  | keyError
  | typeError
  | unboundLocalError
  | assertionError
  | parseFailure
deriving DecidableEq

/-- Python truthiness of an optional string: `None` and `""` are falsy. -/
def truthy : Option String → Bool
  | some s => s != ""
  | none => false

/-- Python `x or d` for an optional string `x` and a string default `d`. -/
def py_or (o : Option String) (d : String) : String :=
  match o with
  | some s => if s != "" then s else d
  | none => d

/-- Python `s.startswith(p)`, by code points. -/
def py_startswith (s p : String) : Bool :=
  s.data.take p.data.length == p.data

/-- Python `s.rstrip('\n')`: remove trailing newline characters. -/
def py_rstrip_newlines (s : String) : String :=
  String.mk ((s.data.reverse.dropWhile (fun c => c == '\n')).reverse)

/-- Python `s.strip()`: remove leading and trailing whitespace. -/
def py_strip (s : String) : String :=
  String.mk (((s.data.dropWhile Char.isWhitespace).reverse.dropWhile Char.isWhitespace).reverse)

/-- Python `s.lower()`, by code points. -/
def py_lower (s : String) : String :=
  String.mk (s.data.map Char.toLower)

/-- Python `needle in haystack` on strings: substring containment. -/
def py_substring (needle haystack : String) : Bool :=
  (List.range (haystack.data.length + 1)).any
    (fun i => ((haystack.data.drop i).take needle.data.length) == needle.data)

/-- Python `int(s)` restricted to the numerals the grammar can produce:
succeeds exactly on nonempty all-digit strings, as `int` does there. -/
def py_int (s : String) : Option Nat :=
  if s.data ≠ [] ∧ s.data.all Char.isDigit then
    some (s.data.foldl (fun n c => n * 10 + (c.toNat - 48)) 0)
  else none

/-- Lexicographic comparison of code-point lists, matching Python string
comparison. -/
def char_le : List Char → List Char → Bool
  | [], _ => true
  | _ :: _, [] => false
  | a :: as, b :: bs => if a < b then true else if b < a then false else char_le as bs

/-- Stable insertion of a string into a sorted list, placing the new element
before the first element that is not smaller. -/
def py_insert (x : String) : List String → List String
  | [] => [x]
  | y :: ys => if char_le x.data y.data then x :: y :: ys else y :: py_insert x ys

/-- Python `sorted` on a list of strings: stable ascending sort. -/
def py_sorted : List String → List String
  | [] => []
  | x :: xs => py_insert x (py_sorted xs)

/-- Embeds `EdgeInfo` (rules.py lines 125-177): a partial ConceptNet edge.
The constructor raising `TypeError` on a null target is modelled by
`mk_edge_info`; values of this structure always have a target. -/
structure EdgeInfo where
  language : Option String
  target : String
  sense : Option String
  rel : Option String
deriving DecidableEq

/-- Embeds `EdgeInfo.__init__`: a null target raises `TypeError`. -/
def mk_edge_info (language : Option String) (target : Option String)
    (sense rel : Option String) : Except PyErr EdgeInfo :=
  match target with
  | none => .error .typeError
  | some t => .ok ⟨language, t, sense, rel⟩

/-- Embeds `EdgeInfo.set_language` (rules.py lines 161-162). -/
def EdgeInfo.set_language (ei : EdgeInfo) (language : Option String) : EdgeInfo :=
  ⟨language, ei.target, ei.sense, ei.rel⟩

/-- Embeds `EdgeInfo.set_default_language` (rules.py lines 164-168): the
guard is `if self.language:`, Python truthiness, so an empty-string
language is also replaced. -/
def EdgeInfo.set_default_language (ei : EdgeInfo) (language : Option String) : EdgeInfo :=
  if truthy ei.language then ei else ⟨language, ei.target, ei.sense, ei.rel⟩

/-- Embeds `EdgeInfo.set_target` (rules.py lines 170-171). -/
def EdgeInfo.set_target (ei : EdgeInfo) (target : String) : EdgeInfo :=
  ⟨ei.language, target, ei.sense, ei.rel⟩

/-- Embeds `EdgeInfo.set_sense` (rules.py lines 173-174). -/
def EdgeInfo.set_sense (ei : EdgeInfo) (sense : Option String) : EdgeInfo :=
  ⟨ei.language, ei.target, sense, ei.rel⟩

/-- Embeds `EdgeInfo.set_rel` (rules.py lines 176-177). -/
def EdgeInfo.set_rel (ei : EdgeInfo) (rel : Option String) : EdgeInfo :=
  ⟨ei.language, ei.target, ei.sense, rel⟩

/-- Embeds `LinkedText` (rules.py lines 92-122). The `text` field is
nullable in the code (for example `external_link` can build a LinkedText
whose text is `None`, and `join_text` defends against that), so it is an
`Option String` here. -/
structure LinkedText where
  text : Option String
  links : List EdgeInfo
deriving DecidableEq

/-- Embeds `LinkedText.__init__` (rules.py lines 108-114): when the text
argument is itself a LinkedText, its text is taken over and its links are
prefixed to the supplied links. -/
def LinkedText.init : Option String ⊕ LinkedText → List EdgeInfo → LinkedText
  | .inr lt, links => ⟨lt.text, lt.links ++ links⟩
  | .inl t, links => ⟨t, links⟩

/-- Embeds `LinkedText.__add__` (rules.py lines 116-119):
`self.text + ' ' + other.text` raises `TypeError` when either text is
`None`, otherwise the texts are joined with a single space and the link
lists concatenated. -/
def LinkedText.add (a other : LinkedText) : Except PyErr LinkedText :=
  match a.text, other.text with
  | some ta, some tb =>
    .ok (LinkedText.init (.inl (some (ta ++ " " ++ tb))) (a.links ++ other.links))
  | _, _ => .error .typeError

/-- Values that can appear in the lists handled by `join_text`: `None`,
strings, LinkedText values, unhandled-template dictionaries, and anything
else (which makes `join_text` raise `TypeError`). -/
inductive PyItem where
  | pynone
  | str (s : String)
  | linked (lt : LinkedText)
  | dict
  | other
deriving DecidableEq

/-- Embeds the loop body accumulation of `join_text` (rules.py lines
216-232): collect the texts and links contributed by each item in order;
an unexpected item raises `TypeError`. A LinkedText item contributes its
links even when its text is `None`. -/
def join_text_items : List PyItem → Except PyErr (List String × List EdgeInfo)
  | [] => .ok ([], [])
  | item :: rest =>
    match (match item with
           | .pynone => Except.ok ([], [])
           | .str s => Except.ok ([s], [])
           | .linked lt =>
             Except.ok ((match lt.text with | some t => [t] | none => []), lt.links)
           | .dict => Except.ok ([], [])
           | .other => Except.error PyErr.typeError) with
    | .error e => .error e
    | .ok (ts, ls) =>
      match join_text_items rest with
      | .error e => .error e
      | .ok (ts2, ls2) => .ok (ts ++ ts2, ls ++ ls2)

/-- Embeds `join_text` (rules.py lines 212-235): `None` in, `None` out;
otherwise the joined LinkedText. -/
def join_text : Option (List PyItem) → Except PyErr (Option LinkedText)
  | none => .ok none
  | some lst =>
    match join_text_items lst with
    | .error e => .error e
    | .ok (ts, ls) => .ok (some (LinkedText.init (.inl (some (String.join ts))) ls))

/-- Embeds the `num_range` AST node used by `sense_num`. -/
structure NumRange where
  range_start : String
  range_end : String
deriving DecidableEq

/-- Embeds the `sense_num` AST node (rules.py lines 495-506): a `first`
group, then either a `last` group (a whole-expression dash, slash or plus
form) or comma-separated `next` numbers and `next_range` ranges. -/
structure SenseNumAst where
  first : String
  last : Option String
  next : Option (List String)
  next_range : Option (List NumRange)
deriving DecidableEq

/-- Embeds `expand_range` inside `sense_num` (rules.py lines 508-511):
inclusive integer expansion of a parsed range; `int` failure propagates. -/
def expand_range (r : NumRange) : Option (List String) :=
  match py_int r.range_start, py_int r.range_end with
  | some a, some b => some ((List.range (b + 1 - a)).map (fun i => toString (a + i)))
  | _, _ => none

/-- Expansion of each range of a `next_range` group in order; the first
failing `int` conversion aborts, as the raised `ValueError` would. -/
def expand_ranges : List NumRange → Option (List (List String))
  | [] => some []
  | r :: rest =>
    match expand_range r, expand_ranges rest with
    | some e, some es => some (e :: es)
    | _, _ => none

/-- Embeds `sense_num` (rules.py lines 495-525). When the `last` group is
truthy it is appended as-is (no range expansion); otherwise `next` numbers
are appended and each `next_range` element is expanded inclusively. The
result is sorted. -/
def sense_num (ast : SenseNumAst) : Option (List String) :=
  let tail : Option (List String) :=
    let with_next : List String :=
      match ast.next with
      | some ns => ns
      | none => []
    match ast.next_range with
    | some rs =>
      match expand_ranges rs with
      | some exs => some (with_next ++ exs.flatten)
      | none => none
    | none => some with_next
  match ast.last with
  | some l =>
    if l != "" then some (py_sorted [ast.first, l])
    else
      match tail with
      | some t => some (py_sorted (ast.first :: t))
      | none => none
  | none =>
    match tail with
    | some t => some (py_sorted (ast.first :: t))
    | none => none

/-- Modelled from the spec: `normalized_concept_uri` (module
`conceptnet5.nodes`) is not under src; per the external-interface section
the node URIs follow the scheme /c/lang/word with optional /pos and /sense
components, sense only present when pos is. -/
def normalized_concept_uri (language : Option String) (text : String)
    (pos sense : Option String) : String :=
  "/c/" ++ (match language with | some l => l | none => "None") ++ "/" ++ text ++
    (match pos with
     | some p => "/" ++ p ++ (match sense with | some s => "/" ++ s | none => "")
     | none => "")

/-- Modelled from the spec: `join_uri` (module `conceptnet5.uri`) is not
under src; it joins URI components with slashes. -/
def join_uri (a b : String) : String := a ++ "/" ++ b

/-- Modelled from the spec: the `Licenses.cc_sharealike` constant of
`conceptnet5.uri`; the spec names the license CC-SA. -/
def license_cc_sharealike : String := "CC-SA"

/-- Modelled from the spec: the edge record produced by `make_edge`
(module `conceptnet5.edges`). The `end` field is named `stop` because
`end` is reserved. -/
structure Edge where
  rel : String
  start : String
  stop : String
  dataset : String
  license : String
  sources : List String
  weight : Nat
deriving DecidableEq

/-- Modelled from the spec: `make_edge` builds the edge record from its
fields. -/
def make_edge (rel start stop dataset license : String) (sources : List String)
    (weight : Nat) : Edge :=
  ⟨rel, start, stop, dataset, license, sources, weight⟩

/-- Embeds the sense-dropping steps of `EdgeInfo.complete_edge` (rules.py
lines 180-186): the sense is dropped when `headpos` is null, and a
blacklisted sense is dropped. -/
def effective_sense (bad_names : List String) (sense : Option String)
    (headpos : Option String) : Option String :=
  let s1 : Option String := match headpos with | none => none | some _ => sense
  match s1 with
  | some s => if s ∈ bad_names then none else some s
  | none => none

/-- Embeds `EdgeInfo.complete_edge` (rules.py lines 179-204). The
blacklist `BAD_NAMES_FOR_THINGS` (module `conceptnet5.uri`, not under src)
is a parameter. -/
def EdgeInfo.complete_edge (ei : EdgeInfo) (bad_names : List String)
    (rule_name headlang headword : String) (headpos : Option String) : Edge :=
  let sense := effective_sense bad_names ei.sense headpos
  let start_uri := normalized_concept_uri (some headlang) headword headpos sense
  let end_uri := normalized_concept_uri ei.language ei.target none none
  let rel := py_or ei.rel "RelatedTo"
  let inverted := py_startswith rel "~"
  make_edge (join_uri "/r" (if inverted then String.mk (rel.data.drop 1) else rel))
    (if inverted then end_uri else start_uri)
    (if inverted then start_uri else end_uri)
    ("/d/wiktionary/en/" ++ headlang)
    license_cc_sharealike
    [join_uri "/s/web/en.wiktionary.org/wiki" headword, join_uri "/s/rule" rule_name]
    1

/-- Keys of a template argument map: positional arguments are integers
starting at 1, named arguments are strings. -/
inductive ArgKey where
  | pos (n : Nat)
  | named (s : String)
deriving DecidableEq

/-- Embeds the `link_template` AST node (rules.py lines 798-811): the
template name, the optional slash-separated subtypes, and the parsed
argument map whose values are LinkedText or `None`. -/
structure LinkTemplateAst where
  linktype : String
  subtypes : Option (List String)
  args : List (ArgKey × Option LinkedText)
deriving DecidableEq

/-- Embeds the first loop of `link_template` (rules.py lines 821-824):
the text values of all non-null arguments, in order. The value of an
argument is its LinkedText's `text`, which may itself be null. -/
def arg_texts (args : List (ArgKey × Option LinkedText)) : List (ArgKey × Option String) :=
  args.filterMap (fun kv => kv.2.map (fun lt => (kv.1, lt.text)))

/-- Embeds the first loop of `link_template` (rules.py lines 821-824): the
links collected from all non-null argument values, in order. -/
def arg_links (args : List (ArgKey × Option LinkedText)) : List EdgeInfo :=
  ((args.filterMap (fun kv => kv.2)).map (fun lt => lt.links)).flatten

/-- Lookup in the `defaultdict(lambda: None)` argument map: a missing key
reads as `None`. -/
def dget (m : List (ArgKey × Option String)) (k : ArgKey) : Option String :=
  match m.find? (fun kv => kv.1 == k) with
  | some kv => kv.2
  | none => none

/-- Update (or insert at the end, as Python dict insertion does) a key of
the argument map. -/
def dset (m : List (ArgKey × Option String)) (k : ArgKey) (v : Option String) :
    List (ArgKey × Option String) :=
  if m.any (fun kv => kv.1 == k) then
    m.map (fun kv => if kv.1 == k then (k, v) else kv)
  else m ++ [(k, v)]

/-- Embeds `link_template` (rules.py lines 798-896). Notes on fidelity:
- argument texts and links are first collected from all non-null
  argument values; branches that match replace the collected links, and
  the fall-through return keeps them;
- `linktype in ('borrowing')` in the source is a substring test on the
  string `'borrowing'`, modelled by `py_substring`;
- reading a missing key of the `defaultdict` inserts it with value
  `None`; only integer keys can affect the `lastarg` computation of the
  confix branch, so only the reads of `args[1]` and `args[2]` are
  recorded with `dset`;
- constructing an `EdgeInfo` whose target argument is `None` raises
  `TypeError` (reachable in the etycomp branch). -/
def link_template (default_language : String) (ast : LinkTemplateAst) :
    Except PyErr LinkedText :=
  let args := arg_texts ast.args
  let links := arg_links ast.args
  let lt := ast.linktype
  let subtypes := match ast.subtypes with | some l => l | none => []
  if lt == "l" && !subtypes.isEmpty && truthy (dget args (.pos 1)) then
    let target := (dget args (.pos 1)).getD ""
    .ok ⟨some target, [⟨some (py_strip (subtypes.headD "")), target, none, none⟩]⟩
  else if (lt == "l" || lt == "term/t") && truthy (dget args (.pos 2)) then
    let target := (dget args (.pos 2)).getD ""
    let text := py_or (dget args (.pos 3)) target
    .ok ⟨some text, [⟨dget args (.pos 1), target, none, none⟩]⟩
  else if lt == "term" && truthy (dget args (.pos 1)) then
    let target := (dget args (.pos 1)).getD ""
    let text := py_or (dget args (.pos 2)) target
    .ok ⟨some text, [⟨dget args (.named "lang"), target, none, none⟩]⟩
  else if lt == "ja-l" && truthy (dget args (.pos 1)) then
    let target := (dget args (.pos 1)).getD ""
    .ok ⟨some target, [⟨some "ja", target, none, none⟩]⟩
  else if lt == "ko-inline" && truthy (dget args (.pos 1)) then
    let target := (dget args (.pos 1)).getD ""
    .ok ⟨some target, [⟨some "ko", target, none, none⟩]⟩
  else if (lt == "back-form" || lt == "clipping" || lt == "-er") && truthy (dget args (.pos 1)) then
    let language := py_or (dget args (.named "lang")) default_language
    .ok ⟨some "", [⟨some language, (dget args (.pos 1)).getD "", none, some "DerivedFrom"⟩]⟩
  else if py_substring lt "borrowing" && truthy (dget args (.pos 2)) then
    .ok ⟨some "", [⟨dget args (.pos 1), (dget args (.pos 2)).getD "", none, some "DerivedFrom"⟩]⟩
  else if lt == "blend" || lt == "calque" || lt == "compound" || lt == "confix"
      || lt == "prefix" || lt == "suffix" then
    let language := py_or (dget args (.named "lang")) default_language
    let args1 :=
      if lt == "prefix" || lt == "confix" then
        let read1 := dset args (.pos 1) (dget args (.pos 1))
        if truthy (dget args (.pos 1)) then
          dset read1 (.pos 1) (some ((dget args (.pos 1)).getD "" ++ "-"))
        else read1
      else args
    let args2 :=
      if lt == "suffix" then
        let read2 := dset args1 (.pos 2) (dget args1 (.pos 2))
        if truthy (dget args1 (.pos 2)) then
          dset read2 (.pos 2) (some ("-" ++ (dget args1 (.pos 2)).getD ""))
        else read2
      else args1
    match (if lt == "confix" then
            let int_keys := args2.filterMap
              (fun kv => match kv.1 with | .pos n => some n | .named _ => none)
            let lastarg := int_keys.foldl Nat.max 0
            if 2 ≤ lastarg then
              match dget args2 (.pos lastarg) with
              | some s => Except.ok (dset args2 (.pos lastarg) (some ("-" ++ s)))
              | none => Except.error PyErr.typeError
            else Except.ok args2
          else Except.ok args2) with
    | .error e => .error e
    | .ok args3 =>
      .ok ⟨some "", ([1, 2, 3].filterMap (fun n =>
        if truthy (dget args3 (.pos n)) then
          some (EdgeInfo.mk (some language) ((dget args3 (.pos n)).getD "")
            none (some "DerivedFrom"))
        else none))⟩
  else if lt == "etycomp" && truthy (dget args (.pos 2)) then
    let lang1 := py_or (dget args (.named "lang1")) default_language
    let lang2 := py_or (dget args (.named "lang2"))
      (py_or (dget args (.named "lang1")) default_language)
    match dget args (.pos 1) with
    | none => .error .typeError
    | some t1 =>
      .ok ⟨some "", [⟨some lang1, t1, none, some "EtymologicallyDerivedFrom"⟩,
                     ⟨some lang2, (dget args (.pos 2)).getD "", none,
                      some "EtymologicallyDerivedFrom"⟩]⟩
  else
    .ok ⟨some "", links⟩

/-- Embeds the structured section tree handed over by the first-stage
reader: heading, text, and nested subsections. -/
inductive Section where
  | mk (heading : String) (text : String) (sections : List Section)

/-- Embeds the structured entry handed over by the first-stage reader. -/
structure StructuredEntry where
  language : String
  title : String
  sections : List Section

/-- Embeds the `ConceptNetWiktionarySemantics` context. The generated PEG
parser (`self.parse`), the titles database, the `BAD_NAMES_FOR_THINGS`
blacklist and the `ENGLISH_NAME_TO_CODE` table are collaborators outside
the embedded file and appear as parameters: `parse` maps a section text
and a start rule to the parsed EdgeInfo list (or a raised error), and
`titledb` answers the existence query on (language, lowercased title). -/
structure Semantics where
  default_language : String
  parse : String → String → Except PyErr (List EdgeInfo)
  titledb : String → String → Bool
  bad_names : List String
  name_to_code : String → Option String

/-- Embeds `language_code` (rules.py lines 88-89), over the
`ENGLISH_NAME_TO_CODE` table supplied in the context. -/
def language_code (sem : Semantics) (language_name : String) : Option String :=
  sem.name_to_code language_name

/-- Embeds `SKIPPED_LANGUAGES` (rules.py line 48). -/
def SKIPPED_LANGUAGES : List String := ["Lojban", "Translingual", "American Sign Language"]

/-- Embeds `POS_HEADINGS` (rules.py lines 22-40). -/
def POS_HEADINGS : List (String × List (String × String)) :=
  [("en", [("Noun", "n"), ("Proper noun", "n"), ("Verb", "v"), ("Adjective", "a"),
           ("Adverb", "r")]),
   ("de", [("Substantiv", "n"), ("Eigenname", "n"), ("Nachname", "n"), ("Vorname", "n"),
           ("Toponym", "n"), ("Verb", "v"), ("Adjektiv", "a"), ("Adverb", "r")])]

/-- Embeds `RULES_AND_RELATIONS_MAP` (rules.py lines 51-85). -/
def RULES_AND_RELATIONS_MAP :
    List (String × List (String × (Option String × Option String))) :=
  [("en",
    [("Translations", (some "translation_section", none)),
     ("Synonyms", (some "link_section", some "Synonym")),
     ("Antonyms", (some "link_section", some "Antonym")),
     ("Hypernyms", (some "link_section", some "IsA")),
     ("Hyponyms", (some "link_section", some "~IsA")),
     ("Holonyms", (some "link_section", some "PartOf")),
     ("Meronyms", (some "link_section", some "PartOf")),
     ("Derived terms", (some "link_section", some "~DerivedFrom")),
     ("Descendants", (some "link_section", some "~DerivedFrom")),
     ("Compounds", (some "link_section", some "~CompoundDerivedFrom")),
     ("Related terms", (some "link_section", some "RelatedTo")),
     ("See also", (some "link_section", some "RelatedTo")),
     ("Pronunciation", (none, none)),
     ("Anagrams", (none, none)),
     ("Statistics", (none, none)),
     ("References", (none, none)),
     ("Quotations", (none, none)),
     ("Romanization", (none, none)),
     ("Usage notes", (none, none))]),
   ("de",
    [("Bedeutungen", (some "definition_section_de", none)),
     ("Übersetzungen", (some "translation_section_de", none)),
     ("Herkunft", (some "etymology_section", some "EtymologicallyDerivedFrom")),
     ("Ähnlichkeiten", (some "link_section", some "RelatedTo")),
     ("Sinnverwandte Wörter", (some "link_section", some "RelatedTo")),
     ("Gegenwörter", (some "link_section", some "Antonym")),
     ("Synonyme", (some "link_section", some "Synonym")),
     ("Oberbegriffe", (some "link_section", some "IsA")),
     ("Unterbegriffe", (some "link_section", some "~IsA")),
     ("Wortbildungen", (some "link_section", some "~DerivedFrom"))])]

/-- Embeds `_get_rule_for_heading` (rules.py lines 292-312). -/
def get_rule_for_heading (sem : Semantics) (heading : String) :
    Option String × Option String :=
  match RULES_AND_RELATIONS_MAP.find? (fun kv => kv.1 == sem.default_language) with
  | none => (none, none)
  | some kv =>
    if sem.default_language == "en" && py_startswith heading "Etymology" then
      (some "etymology_section", some "EtymologicallyDerivedFrom")
    else
      let defaults : Option String × Option String :=
        if sem.default_language == "en" then (some "definition_section", none)
        else (none, none)
      match kv.2.find? (fun e => e.1 == heading) with
      | some e => e.2
      | none => defaults

/-- Embeds the lookup `POS_HEADINGS[headlang]` (rules.py line 318), which
raises `KeyError` when the head language has no POS table. -/
def pos_headings_for (headlang : String) : Except PyErr (List (String × String)) :=
  match POS_HEADINGS.find? (fun kv => kv.1 == headlang) with
  | some kv => .ok kv.2
  | none => .error .keyError

/-- Embeds `check_titledb` (rules.py lines 361-369). -/
def check_titledb (sem : Semantics) (language title : String) : Bool :=
  sem.titledb language (py_lower title)

/-- Embeds `disambiguate_language` (rules.py lines 371-375). -/
def disambiguate_language (sem : Semantics) (options : List String) (title : String) :
    Option String :=
  options.find? (fun option => check_titledb sem option title)

/-- Embeds the `if rule is not None:` body of `parse_structured_section`
(rules.py lines 322-351), after the heading has been dispatched. The local
variable `language` is assigned only when the rule is a definition
section; for every other non-null rule the later reference
`isinstance(language, tuple)` hits an unassigned local and raises
`UnboundLocalError`, modelled by the `none` case of the `language`
option. -/
def section_own_edges (sem : Semantics) (heading text : String)
    (headlang headword : String) (headpos : Option String) :
    Except PyErr (List Edge) :=
  match get_rule_for_heading sem heading with
  | (none, _) => .ok []
  | (some rule, rel) =>
    let language : Option (String × String) :=
      if rule == "definition_section" || rule == "definition_section_de" then
        some (sem.default_language, headlang)
      else none
    match sem.parse (py_rstrip_newlines text ++ "\n") rule with
    | .error e => .error e
    | .ok parsed =>
      let parsed : List EdgeInfo := match rel with
        | some r => parsed.map (fun ei => ei.set_rel (some r))
        | none => parsed
      match language with
      | none => .error .unboundLocalError
      | some (l1, l2) =>
        let parsed : List EdgeInfo := parsed.map (fun ei =>
          ei.set_default_language (disambiguate_language sem [l1, l2] ei.target))
        .ok ((parsed.filter (fun ei =>
            !(sem.bad_names.contains ei.target) && ei.language.isSome)).map
          (fun ei => ei.complete_edge sem.bad_names rule headlang headword headpos))

mutual
/-- Embeds `parse_structured_section` (rules.py lines 314-359): update the
inherited POS from the heading, produce this section's own edges, then
recurse into the subsections with the inherited context. Any raised error
propagates to the entry level. -/
def parse_structured_section (sem : Semantics) :
    Section → String → String → Option String → Except PyErr (List Edge)
  | .mk heading text sections, headlang, headword, headpos =>
    match pos_headings_for headlang with
    | .error e => .error e
    | .ok pos_table =>
      let headpos :=
        match pos_table.find? (fun kv => kv.1 == heading) with
        | some kv => match headpos with | none => some kv.2 | some p => some p
        | none => headpos
      match section_own_edges sem heading text headlang headword headpos with
      | .error e => .error e
      | .ok own =>
        match parse_structured_sections sem sections headlang headword headpos with
        | .error e => .error e
        | .ok kids => .ok (own ++ kids)
/-- Embeds the recursion of `parse_structured_section` over the list of
subsections (rules.py lines 353-358), concatenating edges in order. -/
def parse_structured_sections (sem : Semantics) :
    List Section → String → String → Option String → Except PyErr (List Edge)
  | [], _, _, _ => .ok []
  | s :: rest, headlang, headword, headpos =>
    match parse_structured_section sem s headlang headword headpos with
    | .error e => .error e
    | .ok es =>
      match parse_structured_sections sem rest headlang headword headpos with
      | .error e => .error e
      | .ok more => .ok (es ++ more)
end

/-- Embeds the per-section loop of `parse_structured_entry` (rules.py
lines 268-287): edges of non-failing top-level sections are concatenated
in order, and each caught failure increments the failure counter. -/
def entry_fold (sem : Semantics) (langcode title : String) :
    List Section → List Edge × Nat
  | [] => ([], 0)
  | s :: rest =>
    let r := parse_structured_section sem s langcode title none
    let acc := entry_fold sem langcode title rest
    match r with
    | .ok es => (es ++ acc.1, acc.2)
    | .error _ => (acc.1, acc.2 + 1)

/-- Embeds `parse_structured_entry` (rules.py lines 254-290): skip listed
or unmapped languages, process the top-level sections catching failures,
then `assert failures <= 1` (a second failure raises
`AssertionError`). -/
def parse_structured_entry (sem : Semantics) (entry : StructuredEntry) :
    Except PyErr (List Edge) :=
  if entry.language ∈ SKIPPED_LANGUAGES then .ok []
  else
    match language_code sem entry.language with
    | none => .ok []
    | some langcode =>
      let acc := entry_fold sem langcode entry.title entry.sections
      if acc.2 ≤ 1 then .ok acc.1 else .error .assertionError

/-- Edges of the non-failing results, concatenated in order. -/
def ok_edges : List (Except PyErr (List Edge)) → List Edge
  | [] => []
  | .ok es :: rest => es ++ ok_edges rest
  | .error _ :: rest => ok_edges rest

/-- Number of failing results. -/
def fail_count : List (Except PyErr (List Edge)) → Nat
  | [] => 0
  | .ok _ :: rest => fail_count rest
  | .error _ :: rest => fail_count rest + 1

/-- Concrete context used by the closed theorems: English Wiktionary
semantics, a parser oracle returning no EdgeInfo, an empty titles
database, no blacklisted names, and a name table mapping only English. -/
def sem_test : Semantics :=
  ⟨"en", fun _ _ => .ok [], fun _ _ => false, [],
   fun name => if name == "English" then some "en" else none⟩

theorem mem_py_insert (a x : String) (l : List String) :
    a ∈ py_insert x l ↔ a = x ∨ a ∈ l := by
  induction l with
  | nil => simp [py_insert]
  | cons y ys ih =>
    simp only [py_insert]
    by_cases h : char_le x.data y.data
    · simp [h]
    · simp [h, ih]
      tauto

theorem mem_py_sorted (a : String) (l : List String) :
    a ∈ py_sorted l ↔ a ∈ l := by
  induction l with
  | nil => simp [py_sorted]
  | cons x xs ih => simp [py_sorted, mem_py_insert, ih]

theorem join_text_items_ok (lst : List PyItem) (h : PyItem.other ∉ lst) :
    ∃ p, join_text_items lst = .ok p := by
  induction lst with
  | nil => exact ⟨([], []), rfl⟩
  | cons it rest ih =>
    obtain ⟨⟨ts2, ls2⟩, hp⟩ := ih (fun hm => h (List.mem_cons_of_mem _ hm))
    cases it with
    | other => exact absurd (List.mem_cons_self _ _) h
    | pynone => exact ⟨(ts2, ls2), by simp [join_text_items, hp]⟩
    | str s => exact ⟨(s :: ts2, ls2), by simp [join_text_items, hp]⟩
    | linked lt =>
      exact ⟨((match lt.text with | some t => [t] | none => []) ++ ts2,
        lt.links ++ ls2), by simp [join_text_items, hp]⟩
    | dict => exact ⟨(ts2, ls2), by simp [join_text_items, hp]⟩

theorem entry_fold_spec (sem : Semantics) (langcode title : String) (ss : List Section) :
    entry_fold sem langcode title ss =
      (ok_edges (ss.map (fun s => parse_structured_section sem s langcode title none)),
       fail_count (ss.map (fun s => parse_structured_section sem s langcode title none))) := by
  induction ss with
  | nil => rfl
  | cons s rest ih =>
    simp only [entry_fold, ih, List.map_cons]
    cases parse_structured_section sem s langcode title none <;>
      simp [ok_edges, fail_count]

/-- C1 fails on the code: for a section whose heading dispatches to a
non-null handler that is not a definition section (here the English
`Translations` heading, handler `translation_section`), the recursive
section walker raises `UnboundLocalError` before binding any default
language and emits no edge, because the local variable `language` is only
assigned for definition sections. -/
theorem claim_C1_nondefinition_walker_unbound :
    parse_structured_section sem_test (.mk "Translations" "* x" []) "en" "water" none =
      .error .unboundLocalError := rfl

/-- C2 fails as stated: a link template whose required argument is missing
still returns the links collected from its argument values; here `l`
without argument 2 and without subtypes returns a LinkedText carrying one
link. -/
theorem claim_C2_counterexample :
    link_template "en" ⟨"l", none,
        [(.pos 1, some ⟨some "dog", [⟨some "en", "dog", none, none⟩]⟩)]⟩ =
      .ok ⟨some "", [⟨some "en", "dog", none, none⟩]⟩ ∧
    ([⟨some "en", "dog", none, none⟩] : List EdgeInfo) ≠ [] :=
  ⟨rfl, by decide⟩

/-- C2 amended: for the named templates with their required argument
missing (`l` without argument 2 and without subtypes, `term` without
argument 1, `ja-l` without argument 1), link_template returns a LinkedText
whose text is the empty string and whose links are exactly the links
collected from the argument values, hence empty when no argument value
carries links. -/
theorem claim_C2_link_template_missing_args (default_language : String)
    (ast : LinkTemplateAst)
    (h :
      (ast.linktype = "l" ∧ truthy (dget (arg_texts ast.args) (.pos 2)) = false ∧
        (match ast.subtypes with | some l => l | none => []) = ([] : List String)) ∨
      (ast.linktype = "term" ∧ truthy (dget (arg_texts ast.args) (.pos 1)) = false) ∨
      (ast.linktype = "ja-l" ∧ truthy (dget (arg_texts ast.args) (.pos 1)) = false)) :
    link_template default_language ast = .ok ⟨some "", arg_links ast.args⟩ := by
  obtain ⟨lt, st, args⟩ := ast
  rcases h with ⟨h1, h2, h3⟩ | ⟨h1, h2⟩ | ⟨h1, h2⟩
  · simp only at h1 h2 h3
    subst h1
    have hb : py_substring "l" "borrowing" = false := rfl
    simp [link_template, h2, h3, hb]
  · simp only at h1 h2
    subst h1
    have hb : py_substring "term" "borrowing" = false := rfl
    simp [link_template, h2, hb]
  · simp only at h1 h2
    subst h1
    have hb : py_substring "ja-l" "borrowing" = false := rfl
    simp [link_template, h2, hb]

theorem claim_C2_witness :
    link_template "en" ⟨"term", none, []⟩ = .ok ⟨some "", []⟩ :=
  claim_C2_link_template_missing_args "en" ⟨"term", none, []⟩
    (Or.inr (Or.inl ⟨rfl, rfl⟩))

/-- C3 fails as stated: the whole-expression dash form is not expanded;
parsing the AST of "1-3" yields only the two endpoints, and "2" is
missing from the output. -/
theorem claim_C3_counterexample :
    sense_num ⟨"1", some "3", none, none⟩ = some ["1", "3"] ∧
      "2" ∉ (["1", "3"] : List String) :=
  ⟨rfl, by decide⟩

/-- C3 amended: the inclusive expansion happens exactly when the dash form
is an element of a comma-separated list (a `next_range` group): then the
string form of every integer from a to b appears in the output; when the
dash form is the whole expression (the `last` group), the output is just
the sorted pair of the two endpoints. -/
theorem claim_C3_sense_num_ranges :
    (∀ (first a b : String) (x y : Nat), py_int a = some x → py_int b = some y →
      ∀ i : Nat, x ≤ i → i ≤ y →
        ∃ out, sense_num ⟨first, none, none, some [⟨a, b⟩]⟩ = some out ∧
          toString i ∈ out) ∧
    (∀ (first l : String), l ≠ "" →
      sense_num ⟨first, some l, none, none⟩ = some (py_sorted [first, l])) := by
  constructor
  · intro first a b x y hx hy i hxi hiy
    refine ⟨py_sorted (first ::
      (List.range (y + 1 - x)).map (fun j => toString (x + j))), ?_, ?_⟩
    · simp [sense_num, expand_ranges, expand_range, hx, hy]
    · rw [mem_py_sorted]
      refine List.mem_cons_of_mem _ (List.mem_map.mpr ⟨i - x, ?_, ?_⟩)
      · simp [List.mem_range]
        omega
      · congr 1
        omega
  · intro first l hl
    simp [sense_num, bne_iff_ne, hl]

theorem claim_C3_witness :
    (∃ out, sense_num ⟨"1", none, none, some [⟨"2", "4"⟩]⟩ = some out ∧
        toString 3 ∈ out) ∧
      sense_num ⟨"5", some "2", none, none⟩ = some (py_sorted ["5", "2"]) :=
  ⟨claim_C3_sense_num_ranges.1 "1" "2" "4" 2 4 rfl rfl 3 (by omega) (by omega),
   claim_C3_sense_num_ranges.2 "5" "2" (by decide)⟩

/-- C4: complete_edge uses RelatedTo when the relation is null; a relation
beginning with `~` is emitted with the prefix stripped and the endpoint
URIs swapped; any other nonempty relation keeps the endpoint order (start
is the head concept URI, stop is the target concept URI). -/
theorem claim_C4_complete_edge_relation (bad : List String)
    (lang : Option String) (target : String) (sense rel : Option String)
    (rule headlang headword : String) (headpos : Option String) :
    (rel = none →
      ((EdgeInfo.mk lang target sense rel).complete_edge bad rule headlang
          headword headpos).rel = join_uri "/r" "RelatedTo" ∧
        ((EdgeInfo.mk lang target sense rel).complete_edge bad rule headlang
          headword headpos).start = normalized_concept_uri (some headlang)
            headword headpos (effective_sense bad sense headpos) ∧
        ((EdgeInfo.mk lang target sense rel).complete_edge bad rule headlang
          headword headpos).stop = normalized_concept_uri lang target none none) ∧
    (∀ r, rel = some r → py_startswith r "~" = true →
      ((EdgeInfo.mk lang target sense rel).complete_edge bad rule headlang
          headword headpos).rel = join_uri "/r" (String.mk (r.data.drop 1)) ∧
        ((EdgeInfo.mk lang target sense rel).complete_edge bad rule headlang
          headword headpos).start = normalized_concept_uri lang target none none ∧
        ((EdgeInfo.mk lang target sense rel).complete_edge bad rule headlang
          headword headpos).stop = normalized_concept_uri (some headlang)
            headword headpos (effective_sense bad sense headpos)) ∧
    (∀ r, rel = some r → r ≠ "" → py_startswith r "~" = false →
      ((EdgeInfo.mk lang target sense rel).complete_edge bad rule headlang
          headword headpos).rel = join_uri "/r" r ∧
        ((EdgeInfo.mk lang target sense rel).complete_edge bad rule headlang
          headword headpos).start = normalized_concept_uri (some headlang)
            headword headpos (effective_sense bad sense headpos) ∧
        ((EdgeInfo.mk lang target sense rel).complete_edge bad rule headlang
          headword headpos).stop = normalized_concept_uri lang target none none) := by
  refine ⟨?_, ?_, ?_⟩
  · rintro rfl
    have hrt : py_startswith "RelatedTo" "~" = false := rfl
    simp [EdgeInfo.complete_edge, make_edge, py_or, hrt]
  · rintro r rfl hr
    have hne : r ≠ "" := by
      intro h0
      rw [h0] at hr
      exact absurd hr (by decide)
    have hbne : (r != "") = true := bne_iff_ne.mpr hne
    simp [EdgeInfo.complete_edge, make_edge, py_or, hbne, hr]
  · rintro r rfl hne hr
    have hbne : (r != "") = true := bne_iff_ne.mpr hne
    simp [EdgeInfo.complete_edge, make_edge, py_or, hbne, hr]

theorem claim_C4_witness :
    ((EdgeInfo.mk (some "en") "poodle" none (some "~IsA")).complete_edge []
        "link_section" "en" "dog" none).rel = "/r/IsA" ∧
    ((EdgeInfo.mk (some "en") "poodle" none (some "~IsA")).complete_edge []
        "link_section" "en" "dog" none).start = "/c/en/poodle" ∧
    ((EdgeInfo.mk (some "en") "poodle" none (some "~IsA")).complete_edge []
        "link_section" "en" "dog" none).stop = "/c/en/dog" :=
  (claim_C4_complete_edge_relation [] (some "en") "poodle" none (some "~IsA")
    "link_section" "en" "dog" none).2.1 "~IsA" rfl rfl

/-- C5: with at most one failing top-level section the entry returns the
concatenated edges of the non-failing sections; with two or more failing
sections the entry-level assertion fails and the entry raises instead of
returning edges. -/
theorem claim_C5_entry_failure_policy (sem : Semantics) (entry : StructuredEntry)
    (langcode : String)
    (hskip : entry.language ∉ SKIPPED_LANGUAGES)
    (hcode : sem.name_to_code entry.language = some langcode) :
    (fail_count (entry.sections.map
        (fun s => parse_structured_section sem s langcode entry.title none)) ≤ 1 →
      parse_structured_entry sem entry =
        .ok (ok_edges (entry.sections.map
          (fun s => parse_structured_section sem s langcode entry.title none)))) ∧
    (1 < fail_count (entry.sections.map
        (fun s => parse_structured_section sem s langcode entry.title none)) →
      parse_structured_entry sem entry = .error .assertionError) := by
  have hmain : parse_structured_entry sem entry =
      (if (entry_fold sem langcode entry.title entry.sections).2 ≤ 1
       then .ok (entry_fold sem langcode entry.title entry.sections).1
       else .error .assertionError) := by
    unfold parse_structured_entry language_code
    rw [if_neg hskip, hcode]
  simp only [entry_fold_spec] at hmain
  refine ⟨fun hle => ?_, fun hgt => ?_⟩
  · rw [hmain, if_pos hle]
  · rw [hmain, if_neg (by omega)]

theorem claim_C5_witness :
    parse_structured_entry sem_test ⟨"English", "water", []⟩ = .ok [] ∧
    parse_structured_entry sem_test ⟨"English", "water",
        [.mk "Translations" "" [], .mk "Synonyms" "" []]⟩ = .error .assertionError :=
  ⟨(claim_C5_entry_failure_policy sem_test ⟨"English", "water", []⟩ "en"
      (by decide) rfl).1 (by decide),
   (claim_C5_entry_failure_policy sem_test ⟨"English", "water",
        [.mk "Translations" "" [], .mk "Synonyms" "" []]⟩ "en"
      (by decide) rfl).2 (by decide)⟩

/-- C6: entries whose language is in the skip-list, or whose English
language name has no code in the lookup table, produce an empty edge
list. -/
theorem claim_C6_skipped_or_unmapped (sem : Semantics) (entry : StructuredEntry) :
    (entry.language ∈ SKIPPED_LANGUAGES → parse_structured_entry sem entry = .ok []) ∧
    (sem.name_to_code entry.language = none → parse_structured_entry sem entry = .ok []) := by
  constructor
  · intro h
    unfold parse_structured_entry
    rw [if_pos h]
  · intro h
    unfold parse_structured_entry
    by_cases hs : entry.language ∈ SKIPPED_LANGUAGES
    · rw [if_pos hs]
    · rw [if_neg hs]
      unfold language_code
      rw [h]

theorem claim_C6_witness :
    parse_structured_entry sem_test ⟨"Lojban", "x", []⟩ = .ok [] ∧
    parse_structured_entry sem_test ⟨"Klingon", "x", []⟩ = .ok [] :=
  ⟨(claim_C6_skipped_or_unmapped sem_test ⟨"Lojban", "x", []⟩).1 (by decide),
   (claim_C6_skipped_or_unmapped sem_test ⟨"Klingon", "x", []⟩).2 rfl⟩

/-- C7: complete_edge drops the sense when head_pos is null and when the
sense is blacklisted: in both cases the emitted edge equals the one
computed from the sense-erased EdgeInfo, and in the non-inverted cases the
start URI is the head concept URI built without a sense. -/
theorem claim_C7_complete_edge_sense (bad : List String) (lang : Option String)
    (target : String) (sense rel : Option String) (rule headlang headword : String) :
    ((EdgeInfo.mk lang target sense rel).complete_edge bad rule headlang headword none =
      (EdgeInfo.mk lang target none rel).complete_edge bad rule headlang headword none) ∧
    (∀ (headpos : Option String) (s : String), sense = some s → s ∈ bad →
      (EdgeInfo.mk lang target sense rel).complete_edge bad rule headlang headword headpos =
        (EdgeInfo.mk lang target none rel).complete_edge bad rule headlang headword headpos) ∧
    (py_startswith (py_or rel "RelatedTo") "~" = false →
      ((EdgeInfo.mk lang target sense rel).complete_edge bad rule headlang headword
          none).start =
        normalized_concept_uri (some headlang) headword none none) ∧
    (∀ (headpos : Option String) (s : String), sense = some s → s ∈ bad →
      py_startswith (py_or rel "RelatedTo") "~" = false →
      ((EdgeInfo.mk lang target sense rel).complete_edge bad rule headlang headword
          headpos).start =
        normalized_concept_uri (some headlang) headword headpos none) := by
  refine ⟨rfl, ?_, ?_, ?_⟩
  · rintro headpos s rfl hmem
    cases headpos with
    | none => rfl
    | some p => simp [EdgeInfo.complete_edge, effective_sense, hmem]
  · intro hni
    simp [EdgeInfo.complete_edge, make_edge, effective_sense, hni]
  · rintro headpos s rfl hmem hni
    cases headpos with
    | none => simp [EdgeInfo.complete_edge, make_edge, effective_sense, hni]
    | some p => simp [EdgeInfo.complete_edge, make_edge, effective_sense, hmem, hni]

theorem claim_C7_witness :
    (EdgeInfo.mk (some "fr") "eau" (some "it") none).complete_edge ["it"]
        "translation_section" "en" "water" (some "n") =
      (EdgeInfo.mk (some "fr") "eau" none none).complete_edge ["it"]
        "translation_section" "en" "water" (some "n") ∧
    ((EdgeInfo.mk (some "fr") "eau" (some "x") none).complete_edge []
        "translation_section" "en" "water" none).start = "/c/en/water" :=
  ⟨(claim_C7_complete_edge_sense ["it"] (some "fr") "eau" (some "it") none
      "translation_section" "en" "water").2.1 (some "n") "it" rfl (by decide),
   (claim_C7_complete_edge_sense [] (some "fr") "eau" (some "x") none
      "translation_section" "en" "water").2.2.1 rfl⟩

/-- C8: concatenating two LinkedText values (whose texts are non-null, the
data-model invariant) yields a LinkedText whose text is the first text, a
single space, then the second text, and whose links are the two link lists
concatenated in order. -/
theorem claim_C8_linkedtext_add (a b : LinkedText) (ta tb : String)
    (ha : a.text = some ta) (hb : b.text = some tb) :
    LinkedText.add a b = .ok ⟨some (ta ++ " " ++ tb), a.links ++ b.links⟩ := by
  simp [LinkedText.add, LinkedText.init, ha, hb]

theorem claim_C8_witness :
    LinkedText.add ⟨some "a", []⟩ ⟨some "b", [⟨some "en", "x", none, none⟩]⟩ =
      .ok ⟨some "a b", [⟨some "en", "x", none, none⟩]⟩ :=
  claim_C8_linkedtext_add _ _ "a" "b" rfl rfl

/-- C9 fails as stated: an EdgeInfo whose language is the empty string is
non-null, yet set_default_language replaces it (the source guard is Python
truthiness). -/
theorem claim_C9_counterexample :
    (EdgeInfo.mk (some "") "x" none none).set_default_language (some "en") ≠
      EdgeInfo.mk (some "") "x" none none := by decide

/-- C9 amended: set_default_language is the identity exactly when the
language field is non-null and nonempty; when the language is null or the
empty string it returns a copy with the language set to the argument, all
other fields unchanged. -/
theorem claim_C9_set_default_language (t : String) (se r L : Option String) :
    (∀ s : String, s ≠ "" →
      (EdgeInfo.mk (some s) t se r).set_default_language L = EdgeInfo.mk (some s) t se r) ∧
    ((EdgeInfo.mk none t se r).set_default_language L = EdgeInfo.mk L t se r) ∧
    ((EdgeInfo.mk (some "") t se r).set_default_language L = EdgeInfo.mk L t se r) := by
  refine ⟨fun s hs => ?_, rfl, rfl⟩
  simp [EdgeInfo.set_default_language, truthy, hs]

theorem claim_C9_witness :
    (EdgeInfo.mk (some "fr") "x" none none).set_default_language (some "en") =
        EdgeInfo.mk (some "fr") "x" none none ∧
    (EdgeInfo.mk none "x" none none).set_default_language (some "en") =
        EdgeInfo.mk (some "en") "x" none none :=
  ⟨(claim_C9_set_default_language "x" none none (some "en")).1 "fr" (by decide),
   (claim_C9_set_default_language "x" none none (some "en")).2.1⟩

/-- C10: join_text maps a null list to null rather than a LinkedText, and
maps every non-null list of handled item kinds to a LinkedText, so a
caller on possibly-null input must handle a null result. -/
theorem claim_C10_join_text (lst : List PyItem) (h : PyItem.other ∉ lst) :
    join_text none = .ok none ∧
      ∃ lt : LinkedText, join_text (some lst) = .ok (some lt) := by
  refine ⟨rfl, ?_⟩
  obtain ⟨⟨ts, ls⟩, hp⟩ := join_text_items_ok lst h
  exact ⟨LinkedText.init (.inl (some (String.join ts))) ls, by simp [join_text, hp]⟩

theorem claim_C10_witness :
    join_text none = .ok none ∧
      ∃ lt : LinkedText,
        join_text (some [PyItem.str "a", PyItem.pynone, PyItem.dict]) = .ok (some lt) :=
  claim_C10_join_text [PyItem.str "a", PyItem.pynone, PyItem.dict] (by decide)
